import Mathlib

/-!
Verification development for the resume-tailoring script (`main.py`).

The script is a linear command-line program: it configures an API key at
module load, reads a resume and a job-description file, sends one request to
a text-generation service, asks the operator for confirmation and an output
filename, compiles the returned LaTeX with `pdflatex` (twice) in a temporary
directory and copies the produced PDF to the chosen destination.

This file shallowly embeds the script.  External effects (the API call, the
two `pdflatex` subprocess invocations, the presence of the produced PDF in
the temporary directory, the operator's console answers) are modelled as
explicit oracle inputs; every piece of pure logic (string trimming, case
folding, `os.path.basename` / `os.path.dirname`, `str.split('.')`, default
filename derivation, the prompt loops, the control flow of
`compile_latex_to_pdf` and of `main`) is translated from the source.

Python's `str.lower` and `str.strip` are modelled with `Char.toLower` and
`Char.isWhitespace`, which agree with Python on the ASCII alphabet that the
script's accepted answers (`y`, `yes`, `n`, `no`) and filenames of interest
use.  `os.path` functions are modelled after their POSIX definitions
(`posixpath.basename` / `posixpath.dirname`), with `/` as the separator.
-/

namespace ResumeTailor

/-! ### Python string primitives -/

/-- Model of Python `str.strip()` on the character list: drop whitespace from
both ends. -/
def stripL (l : List Char) : List Char :=
  ((l.dropWhile Char.isWhitespace).reverse.dropWhile Char.isWhitespace).reverse

/-- Model of Python `str.strip()`. -/
def pyStrip (s : String) : String := ⟨stripL s.data⟩

/-- Model of Python `str.lower()` (ASCII case folding). -/
def pyLower (s : String) : String := ⟨s.data.map Char.toLower⟩

/-- Model of Python `str.endswith(suffix)`. -/
def pyEndsWith (s suffix : String) : Bool := suffix.data.isSuffixOf s.data

/-- Position one past the last `'/'` of the list, `0` when there is none:
the `i = p.rfind('/') + 1` step of `posixpath.basename`/`posixpath.dirname`. -/
def lastSlashPos : List Char → Nat
  | [] => 0
  | c :: rest =>
    if lastSlashPos rest ≠ 0 then lastSlashPos rest + 1
    else if c = '/' then 1 else 0

/-- Model of `posixpath.basename` on character lists: everything after the
last `'/'`. -/
def basenameL (l : List Char) : List Char := l.drop (lastSlashPos l)

/-- Model of `os.path.basename` (POSIX). -/
def basename (s : String) : String := ⟨basenameL s.data⟩

/-- Model of `posixpath.dirname` on character lists: `head = p[:rfind('/')+1]`;
if `head` is non-empty and not all slashes it is right-stripped of slashes. -/
def dirnameL (l : List Char) : List Char :=
  if l.take (lastSlashPos l) ≠ [] ∧
      (l.take (lastSlashPos l)).any (fun c => c ≠ '/') then
    ((l.take (lastSlashPos l)).reverse.dropWhile (fun c => c = '/')).reverse
  else l.take (lastSlashPos l)

/-- Model of `os.path.dirname` (POSIX). -/
def dirname (s : String) : String := ⟨dirnameL s.data⟩

/-- Model of Python `str.split('.')` on character lists. -/
def splitDot : List Char → List (List Char)
  | [] => [[]]
  | c :: rest =>
    let r := splitDot rest
    if c = '.' then [] :: r
    else (c :: r.headD []) :: r.tail

/-! ### The module-level API-key configuration block (`main.py` lines 10-15)

The source is

```
try:
    genai.configure(api_key="Put API Key here")
except KeyError:
    print("FATAL ERROR: The GOOGLE_API_KEY environment variable is not set.")
    ...
    sys.exit(1)
```

The `try` body passes the literal string `"Put API Key here"` to
`genai.configure`; it performs no environment lookup (no `os.environ[...]`
subscript), so no `KeyError` can be raised and the `except` branch — the only
path to `sys.exit(1)` — is unreachable.  The block therefore configures the
hard-coded placeholder key and proceeds, whatever the process environment
holds. -/

/-- Result of the module-level configuration block: which key was handed to
`genai.configure`, and the exit code if the block terminated the process. -/
structure ConfigResult where
  configuredKey : Option String
  exitCode : Option Nat
deriving DecidableEq, Repr

/-- The configuration block evaluated against a process environment
(an association list of environment variables).  Translated from the source:
the environment is never consulted and the `except KeyError` branch is dead,
so the block always configures the literal placeholder and never exits. -/
def configBlock (processEnv : List (String × String)) : ConfigResult :=
  ⟨some "Put API Key here", none⟩

/-! ### The compiler driver `compile_latex_to_pdf` (`main.py` lines 56-101) -/

/-- Outcome of one `subprocess.run(command, check=True, ...)` invocation of
`pdflatex`: normal exit 0, `CalledProcessError` (non-zero exit under
`check=True`), or `FileNotFoundError` (executable absent from `PATH`). -/
inductive RunOutcome
  | ok
  | calledProcessError
  | fileNotFound
deriving DecidableEq, Repr

/-- Observable result of `compile_latex_to_pdf`: its boolean return value,
how many `pdflatex` subprocesses it started, the contents written to the
destination file (`none` when the destination is never created or modified),
and whether the specific "'pdflatex' command not found" message was printed. -/
structure CompileResult where
  success : Bool
  invocations : Nat
  destWrite : Option String
  compilerMissingMessage : Bool
deriving DecidableEq, Repr

/-- `compile_latex_to_pdf`, translated from the source.  The two scripted
subprocess outcomes `run1`, `run2` and the contents of `source.pdf` in the
temporary directory after the runs (`pdfProduced`, `none` when absent) are
the oracle; the control flow is the script's: the two invocations sit in one
`try`, so a raise from the first aborts before the second; only after both
succeed and `source.pdf` exists is the PDF copied to the destination.  The
writes of `source.tex`/`source.log` stay inside the temporary directory and
are not part of the observable result. -/
def compile_latex_to_pdf (run1 run2 : RunOutcome) (pdfProduced : Option String) :
    CompileResult :=
  match run1 with
  | RunOutcome.fileNotFound => ⟨false, 1, none, true⟩
  | RunOutcome.calledProcessError => ⟨false, 1, none, false⟩
  | RunOutcome.ok =>
    match run2 with
    | RunOutcome.fileNotFound => ⟨false, 2, none, true⟩
    | RunOutcome.calledProcessError => ⟨false, 2, none, false⟩
    | RunOutcome.ok =>
      match pdfProduced with
      | some contents => ⟨true, 2, some contents, false⟩
      | none => ⟨false, 2, none, false⟩

/-! ### The tailoring client `get_customized_latex` (`main.py` lines 38-54) -/

/-- The fixed instruction block `SYSTEM_PROMPT` (`main.py` lines 19-36),
byte-for-byte the Python triple-quoted string (apostrophes and backticks
written as `\x27`/`\x60` escapes). -/
def SYSTEM_PROMPT : String := "\nYou are an expert career coach and professional resume editor who specializes in tailoring LaTeX resumes for specific job descriptions.\n\nYour task is to subtly modify the provided LaTeX resume to better align with the requirements and keywords found in the provided job description.\n\n**CRITICAL RULES:**\n1.  **DO NOT CHANGE CORE FACTS:** You must not change the candidate\x27s name, contact information, university, degree, previous employers, job titles, or dates of employment. The core factual history is sacred and must be preserved.\n2.  **DO NOT INVENT:** Do not invent new skills, projects, or experiences. You can only work with the information already present in the resume.\n3.  **FOCUS ON REPHRASING AND HIGHLIGHTING:** Your main job is to:\n    - Rephrase bullet points under the \x27Experience\x27 and \x27Projects\x27 sections to use language and keywords from the job description.\n    - Reorder bullet points within a single job experience to highlight the most relevant achievements first.\n    - Slightly tweak the \x27Summary\x27 or \x27Objective\x27 section to better match the target role.\n4.  **MAINTAIN VALID LATEX:** The output MUST be a complete, valid, and compilable LaTeX document. Do not break the LaTeX syntax.\n5.  **RAW OUTPUT ONLY:** Your entire output must be ONLY the raw LaTeX source code. Do not include any commentary, explanations, or markdown like \x60\x60\x60latex ... \x60\x60\x60.\n6.  **DO NOT USE ANY SPECIFC STAT FROM THE JOB DESCRIPTION, JUST EDIT THE ORIGINAL RESUME TO BE ATS FREINDLY WITH THE JD**\n7. **NOFLUFF ONLY LATEX CODE IN YOUR OUTPUT**\nHere is the job description and the resume. Modify the resume according to these rules.\n"

/-- The request payload, translated from
`f"{SYSTEM_PROMPT}\n\n--- JOB DESCRIPTION ---\n{jd_text}\n\n--- LATEX RESUME ---\n{resume_latex}"`
(`main.py` line 47). -/
def full_prompt (jd_text resume_latex : String) : String :=
  SYSTEM_PROMPT ++
    ("\n\n--- JOB DESCRIPTION ---\n" ++
      (jd_text ++ ("\n\n--- LATEX RESUME ---\n" ++ resume_latex)))

/-- Oracle for the external `model.generate_content(full_prompt)` call:
either it returns a response whose `.text` is `text`, or it raises some
exception (any `Exception`, summarized by its message). -/
inductive ApiBehavior
  | returns (text : String)
  | raises (message : String)
deriving DecidableEq, Repr

/-- `get_customized_latex`, translated from the source: builds `full_prompt`
from the two inputs, performs the single API call, and — through the
`try/except Exception` — returns the response text on success and `None` on
any raised exception.  The result pairs the payload actually sent with the
returned value, so that both are observable. -/
def get_customized_latex (api : ApiBehavior) (jd_text resume_latex : String) :
    String × Option String :=
  (full_prompt jd_text resume_latex,
    match api with
    | ApiBehavior.returns text => some text
    | ApiBehavior.raises _ => none)

/-! ### The interactive loops and `main` (`main.py` lines 103-168) -/

/-- Decision of the confirmation loop. -/
inductive ConfirmAnswer
  | yes
  | no
deriving DecidableEq, Repr

/-- The confirmation loop (`main.py` lines 136-144) run against a scripted
list of operator answers: each answer is normalized by
`input(...).lower().strip()`; `y`/`yes` proceeds, `n`/`no` aborts, anything
else repeats the prompt.  `none` means the scripted answers ran out, i.e.
the loop would still be prompting. -/
def confirmLoop : List String → Option ConfirmAnswer
  | [] => none
  | s :: rest =>
    let confirm := pyStrip (pyLower s)
    if confirm = "y" ∨ confirm = "yes" then some ConfirmAnswer.yes
    else if confirm = "n" ∨ confirm = "no" then some ConfirmAnswer.no
    else confirmLoop rest

/-- `company_name` (`main.py` line 148):
`os.path.basename(jd_file_path).split('.')[0].replace(' ', '_')`. -/
def company_name (jd_file_path : String) : String :=
  ⟨((splitDot (basenameL jd_file_path.data)).headD []).map
      (fun c => if c = ' ' then '_' else c)⟩

/-- `default_name` (`main.py` line 149):
`f"Resume_JohnDoe_for_{company_name}.pdf"`. -/
def default_name (jd_file_path : String) : String :=
  "Resume_JohnDoe_for_" ++ company_name jd_file_path ++ ".pdf"

/-- The filename loop (`main.py` lines 147-162) run against a scripted list
of operator answers: the answer is stripped; blank selects the default name;
a name with a directory component (`os.path.dirname` non-empty) is rejected
and the prompt repeats; otherwise `.pdf` is appended unless the lowercased
name already ends in `.pdf`, and the loop breaks with that name.  `none`
means the scripted answers ran out. -/
def namingLoop (jd_file_path : String) : List String → Option String
  | [] => none
  | s :: rest =>
    let pdf0 := pyStrip s
    let pdf1 := if pdf0 = "" then default_name jd_file_path else pdf0
    if dirname pdf1 ≠ "" then namingLoop jd_file_path rest
    else if ¬ pyEndsWith (pyLower pdf1) ".pdf" then some (pdf1 ++ ".pdf")
    else some pdf1

/-- Oracle environment for one run of `main` after the two input files have
been read successfully: the file contents, the job-description path (used
for the default output name), the API behaviour, the scripted operator
answers to the two prompts, and the compiler oracle. -/
structure Env where
  jd_file_path : String
  jd_text : String
  resume_latex : String
  api : ApiBehavior
  confirmInputs : List String
  nameInputs : List String
  run1 : RunOutcome
  run2 : RunOutcome
  pdfProduced : Option String
deriving Repr

/-- How the process run ends: `exited code` for `sys.exit(code)` or for
falling off the end of `main` (exit status 0); `prompting` when a scripted
answer list ran out, i.e. the real program would still be looping at a
prompt. -/
inductive Term
  | exited (code : Nat)
  | prompting
deriving DecidableEq, Repr

/-- Observable result of `main` (after the file reads): how the process
ended, whether the tailored source was printed for review, how many
`pdflatex` subprocesses were started, which destination filename was chosen
(handed to `compile_latex_to_pdf`), and the destination write
(filename and contents) if one happened. -/
structure MainResult where
  term : Term
  reviewed : Bool
  compileCalls : Nat
  chosenName : Option String
  destWrite : Option (String × String)
deriving DecidableEq, Repr

/-- `main` from the point after both input files were read (`main.py`
lines 122-168), translated from the source: call `get_customized_latex`;
`if not customized_latex` (i.e. `None` or the empty string) print and
`sys.exit(1)` before the review dump; otherwise print the review, run the
confirmation loop (`n`/`no` prints "Aborted by user." and `sys.exit(0)`),
run the filename loop, call `compile_latex_to_pdf`, print the final status
and return (process exit 0 either way). -/
def mainAfterRead (env : Env) : MainResult :=
  let r := get_customized_latex env.api env.jd_text env.resume_latex
  match r.2 with
  | none => ⟨Term.exited 1, false, 0, none, none⟩
  | some customized =>
    if customized = "" then ⟨Term.exited 1, false, 0, none, none⟩
    else
      match confirmLoop env.confirmInputs with
      | none => ⟨Term.prompting, true, 0, none, none⟩
      | some ConfirmAnswer.no => ⟨Term.exited 0, true, 0, none, none⟩
      | some ConfirmAnswer.yes =>
        match namingLoop env.jd_file_path env.nameInputs with
        | none => ⟨Term.prompting, true, 0, none, none⟩
        | some fname =>
          let cr := compile_latex_to_pdf env.run1 env.run2 env.pdfProduced
          ⟨Term.exited 0, true, cr.invocations, some fname,
            cr.destWrite.map (fun contents => (fname, contents))⟩

/-! ### Supporting lemmas -/

/-- A `String` built from a character list is empty exactly when the list is. -/
theorem mkStr_eq_empty_iff (l : List Char) : (⟨l⟩ : String) = "" ↔ l = [] := by
  constructor
  · intro h
    exact congrArg String.data h
  · intro h
    rw [h]

/-- `lastSlashPos` is zero exactly when the list has no slash. -/
theorem lastSlashPos_eq_zero_iff (l : List Char) :
    lastSlashPos l = 0 ↔ '/' ∉ l := by
  induction l with
  | nil => simp [lastSlashPos]
  | cons c rest ih =>
    by_cases hr : lastSlashPos rest = 0
    · by_cases hc : c = '/'
      · subst hc
        simp [lastSlashPos, hr]
      · simp [lastSlashPos, hr, hc, ih.mp hr, Ne.symm hc]
    · have hmem : '/' ∈ rest := by
        by_contra hnot
        exact hr (ih.mpr hnot)
      simp [lastSlashPos, hr, List.mem_cons, hmem]

/-- Without a slash, the POSIX `dirname` is empty. -/
theorem dirnameL_eq_nil_of_not_mem {l : List Char} (h : '/' ∉ l) :
    dirnameL l = [] := by
  have h0 : lastSlashPos l = 0 := (lastSlashPos_eq_zero_iff l).mpr h
  simp [dirnameL, h0]

/-- With a slash present, the POSIX `dirname` is non-empty (this is the
truthiness test of the script's path-traversal guard). -/
theorem dirnameL_ne_nil_of_mem {l : List Char} (h : '/' ∈ l) :
    dirnameL l ≠ [] := by
  have h0 : lastSlashPos l ≠ 0 := fun h0 => (lastSlashPos_eq_zero_iff l).mp h0 h
  have hne : l.take (lastSlashPos l) ≠ [] := by
    simp only [ne_eq, List.take_eq_nil_iff]
    push_neg
    exact ⟨h0, fun hl => by simp [hl] at h⟩
  unfold dirnameL
  by_cases hany : (l.take (lastSlashPos l)).any (fun c => c ≠ '/') = true
  · rw [if_pos ⟨hne, hany⟩]
    intro hcontra
    have hdrop :
        ((l.take (lastSlashPos l)).reverse.dropWhile (fun c => c = '/')) = [] := by
      have := congrArg List.reverse hcontra
      simpa using this
    rw [List.dropWhile_eq_nil_iff] at hdrop
    rcases List.any_eq_true.mp hany with ⟨x, hx, hxne⟩
    have : (decide (x = '/')) = true := hdrop x (List.mem_reverse.mpr hx)
    simp at this hxne
    exact hxne this
  · rw [if_neg (fun hcond => hany hcond.2)]
    exact hne

/-- `dirname` of a string is empty exactly when the string has no slash. -/
theorem dirname_eq_empty_iff (s : String) :
    dirname s = "" ↔ '/' ∉ s.data := by
  rw [dirname, mkStr_eq_empty_iff]
  constructor
  · intro h hm
    exact dirnameL_ne_nil_of_mem hm h
  · exact dirnameL_eq_nil_of_not_mem

/-- The POSIX `basename` — everything after the last slash — contains no
slash. -/
theorem not_mem_basenameL (l : List Char) : '/' ∉ basenameL l := by
  induction l with
  | nil => simp [basenameL, lastSlashPos]
  | cons c rest ih =>
    by_cases hr : lastSlashPos rest = 0
    · by_cases hc : c = '/'
      · subst hc
        have : basenameL ('/' :: rest) = rest := by
          simp [basenameL, lastSlashPos, hr]
        rw [this]
        exact (lastSlashPos_eq_zero_iff rest).mp hr
      · have : basenameL (c :: rest) = c :: rest := by
          simp [basenameL, lastSlashPos, hr, hc]
        rw [this]
        simp only [List.mem_cons, not_or]
        exact ⟨Ne.symm hc, (lastSlashPos_eq_zero_iff rest).mp hr⟩
    · have : basenameL (c :: rest) = basenameL rest := by
        simp [basenameL, lastSlashPos, hr]
      rw [this]
      exact ih

/-- A character surviving `dropWhile` membership: an element on which the
predicate is false is still present after `dropWhile`. -/
theorem mem_dropWhile_of_mem {p : Char → Bool} {c : Char} :
    ∀ {l : List Char}, c ∈ l → p c = false → c ∈ l.dropWhile p := by
  intro l
  induction l with
  | nil => intro h _; cases h
  | cons a rest ih =>
    intro hmem hp
    by_cases ha : p a = true
    · rw [List.dropWhile_cons_of_pos ha]
      rcases List.mem_cons.mp hmem with rfl | hr
      · rw [hp] at ha; cases ha
      · exact ih hr hp
    · rw [List.dropWhile_cons_of_neg ha]
      exact hmem

/-- A non-whitespace character survives `strip`. -/
theorem mem_stripL_of_mem {c : Char} {l : List Char} (hmem : c ∈ l)
    (hws : c.isWhitespace = false) : c ∈ stripL l := by
  unfold stripL
  rw [List.mem_reverse]
  exact mem_dropWhile_of_mem
    (List.mem_reverse.mpr (mem_dropWhile_of_mem hmem hws)) hws

/-- `splitDot` never returns the empty list of fields. -/
theorem splitDot_ne_nil (l : List Char) : splitDot l ≠ [] := by
  cases l with
  | nil => simp [splitDot]
  | cons c rest =>
    by_cases hc : c = '.'
    · simp [splitDot, hc]
    · simp [splitDot, hc]

/-- Every character of the first `split('.')` field comes from the input. -/
theorem mem_of_mem_splitDot_headD {x : Char} :
    ∀ {l : List Char}, x ∈ (splitDot l).headD [] → x ∈ l := by
  intro l
  induction l with
  | nil => intro h; simp [splitDot] at h
  | cons c rest ih =>
    intro h
    by_cases hc : c = '.'
    · simp [splitDot, hc] at h
    · simp only [splitDot, hc, if_neg, ite_false, List.headD_cons] at h
      rcases List.mem_cons.mp h with rfl | hr
      · exact List.mem_cons_self x rest
      · exact List.mem_cons_of_mem c (ih hr)

/-- The first `split('.')` field of a list whose first dot is explicit. -/
theorem splitDot_headD_append {b1 : List Char} (b2 : List Char)
    (h : '.' ∉ b1) : (splitDot (b1 ++ '.' :: b2)).headD [] = b1 := by
  induction b1 with
  | nil => simp [splitDot]
  | cons a b1' ih =>
    have ha : a ≠ '.' := fun hcontra => h (hcontra ▸ List.mem_cons_self a b1')
    have hb1' : '.' ∉ b1' := fun hmem => h (List.mem_cons_of_mem a hmem)
    simp only [List.cons_append, splitDot, ha, ite_false, List.headD_cons,
      List.append_eq]
    rw [ih hb1']

/-- The company part of the default filename contains no slash. -/
theorem not_mem_company_name (p : String) : '/' ∉ (company_name p).data := by
  intro hmem
  simp only [company_name] at hmem
  rcases List.mem_map.mp hmem with ⟨y, hy, hrepl⟩
  have hy' : y ∈ basenameL p.data := mem_of_mem_splitDot_headD hy
  by_cases hsp : y = ' '
  · rw [hsp] at hrepl
    simp at hrepl
  · rw [if_neg hsp] at hrepl
    exact not_mem_basenameL p.data (hrepl ▸ hy')

/-- The default filename contains no slash, hence passes the
path-traversal guard. -/
theorem dirname_default_name (p : String) : dirname (default_name p) = "" := by
  rw [dirname_eq_empty_iff]
  intro hmem
  simp only [default_name, String.data_append, List.mem_append] at hmem
  rcases hmem with (h | h) | h
  · revert h; decide
  · exact not_mem_company_name p h
  · revert h; decide

/-- Anything of the shape `s ++ ".pdf"` passes the script's lowercased
`.endswith('.pdf')` test. -/
theorem pyEndsWith_pdf_append (s : String) :
    pyEndsWith (pyLower (s ++ ".pdf")) ".pdf" = true := by
  simp only [pyEndsWith, pyLower, String.data_append, List.map_append]
  have hmap : (".pdf".data.map Char.toLower) = ".pdf".data := by decide
  rw [hmap, List.isSuffixOf_iff_suffix]
  exact List.suffix_append _ _

/-- Every accepted result of the filename loop is free of `'/'`: a blank
answer selects the default name (built from `basename`, hence slash-free)
and any non-blank answer must have passed the `os.path.dirname` guard. -/
theorem namingLoop_result_no_slash (p : String) :
    ∀ (inputs : List String) (name : String),
      namingLoop p inputs = some name → '/' ∉ name.data := by
  intro inputs
  induction inputs with
  | nil =>
    intro name h
    simp [namingLoop] at h
  | cons s rest ih =>
    intro name h
    simp only [namingLoop] at h
    set pdf1 := if pyStrip s = "" then default_name p else pyStrip s with hpdf1
    by_cases hg : dirname pdf1 ≠ ""
    · rw [if_pos hg] at h
      exact ih name h
    · rw [if_neg hg] at h
      have hslash : '/' ∉ pdf1.data := (dirname_eq_empty_iff pdf1).mp (not_not.mp hg)
      by_cases he : pyEndsWith (pyLower pdf1) ".pdf" = true
      · rw [if_neg (not_not.mpr he)] at h
        rw [← Option.some.inj h]
        exact hslash
      · rw [if_pos he] at h
        rw [← Option.some.inj h]
        intro hmem
        rw [String.data_append] at hmem
        rcases List.mem_append.mp hmem with h1 | h2
        · exact hslash h1
        · revert h2
          decide

/-! ### The claims -/

/-- Claim C1 (code_bug): the spec says the run aborts immediately, before
any file I/O, with a non-zero exit when the API key is absent or invalid.
The code does not: `genai.configure` is called with the hard-coded literal
`"Put API Key here"`, the environment is never read, and the
`except KeyError` branch (the only path to `sys.exit(1)`) is dead.
Evaluated at the failing input — a process environment in which
`GOOGLE_API_KEY` is not set — the configuration block does not exit and
proceeds with the placeholder key. -/
theorem spec_c1_config_ignores_environment :
    List.lookup "GOOGLE_API_KEY" ([] : List (String × String)) = none ∧
    (configBlock []).exitCode = none ∧
    (configBlock []).configuredKey = some "Put API Key here" :=
  ⟨rfl, rfl, rfl⟩

/-- Claim C2, counterexample: the claim asserts that for every pair of
inputs the separators are unambiguous — no input's content can be mistaken
for the other's.  This fails: the two distinct input pairs
(`"\n\n--- LATEX RESUME ---"`, `""`) and (`""`, `"\n--- LATEX RESUME ---\n"`)
produce the identical request payload, so the payload does not determine
which part was the job description and which the resume. -/
theorem spec_c2_counterexample :
    full_prompt "\n\n--- LATEX RESUME ---" "" =
      full_prompt "" "\n--- LATEX RESUME ---\n" ∧
    ¬(("\n\n--- LATEX RESUME ---" : String) = "" ∧
      ("" : String) = "\n--- LATEX RESUME ---\n") := by
  constructor
  · show SYSTEM_PROMPT ++ _ = SYSTEM_PROMPT ++ _
    exact congrArg (SYSTEM_PROMPT ++ ·) (by decide)
  · intro h
    exact absurd h.1 (by decide)

/-- Claim C2, amended: the payload always consists, in order, of the fixed
instruction block, the job-description separator line, the job-description
text, the resume separator line, and the resume text; moreover each input
is uniquely recoverable from the payload *given the other* (the
construction is injective in each argument separately).  Full joint
unambiguity fails, as the counterexample shows. -/
theorem spec_c2_payload_structure (jd_text resume_latex : String) :
    full_prompt jd_text resume_latex =
      SYSTEM_PROMPT ++ ("\n\n--- JOB DESCRIPTION ---\n" ++
        (jd_text ++ ("\n\n--- LATEX RESUME ---\n" ++ resume_latex))) ∧
    (∀ r2, full_prompt jd_text resume_latex = full_prompt jd_text r2 →
      resume_latex = r2) ∧
    (∀ j2, full_prompt jd_text resume_latex = full_prompt j2 resume_latex →
      jd_text = j2) := by
  refine ⟨rfl, ?_, ?_⟩
  · intro r2 h
    have h2 := congrArg String.data h
    simp only [full_prompt, String.data_append] at h2
    have h3 := List.append_cancel_left (List.append_cancel_left h2)
    have h4 := List.append_cancel_left (List.append_cancel_left h3)
    exact String.ext h4
  · intro j2 h
    have h2 := congrArg String.data h
    simp only [full_prompt, String.data_append] at h2
    have h3 := List.append_cancel_left (List.append_cancel_left h2)
    exact String.ext (List.append_cancel_right h3)

/-- Witness for `spec_c2_payload_structure` at concrete inputs. -/
theorem spec_c2_payload_structure_witness :
    full_prompt "JD" "RES" =
      SYSTEM_PROMPT ++ ("\n\n--- JOB DESCRIPTION ---\n" ++
        ("JD" ++ ("\n\n--- LATEX RESUME ---\n" ++ "RES"))) ∧
    ("RES" : String) = "RES" ∧ ("JD" : String) = "JD" :=
  ⟨(spec_c2_payload_structure "JD" "RES").1,
    (spec_c2_payload_structure "JD" "RES").2.1 "RES" rfl,
    (spec_c2_payload_structure "JD" "RES").2.2 "JD" rfl⟩

/-- Claim C3: the compiler driver starts exactly two `pdflatex` subprocesses
whenever it reports success, and if the first invocation raises a hard
error (`CalledProcessError` from a non-zero exit, or `FileNotFoundError`)
the second invocation is never attempted and failure is reported. -/
theorem spec_c3_invocation_policy (run1 run2 : RunOutcome)
    (pdfProduced : Option String) :
    ((compile_latex_to_pdf run1 run2 pdfProduced).success = true →
      (compile_latex_to_pdf run1 run2 pdfProduced).invocations = 2) ∧
    (run1 ≠ RunOutcome.ok →
      (compile_latex_to_pdf run1 run2 pdfProduced).invocations = 1 ∧
      (compile_latex_to_pdf run1 run2 pdfProduced).success = false) := by
  cases run1 <;> cases run2 <;> cases pdfProduced <;>
    simp [compile_latex_to_pdf]

/-- Witness for `spec_c3_invocation_policy`. -/
theorem spec_c3_invocation_policy_witness :
    (compile_latex_to_pdf RunOutcome.ok RunOutcome.ok (some "PDF")).invocations = 2 ∧
    ((compile_latex_to_pdf RunOutcome.fileNotFound RunOutcome.ok none).invocations = 1 ∧
      (compile_latex_to_pdf RunOutcome.fileNotFound RunOutcome.ok none).success = false) :=
  ⟨(spec_c3_invocation_policy RunOutcome.ok RunOutcome.ok (some "PDF")).1 rfl,
    (spec_c3_invocation_policy RunOutcome.fileNotFound RunOutcome.ok none).2
      (by decide)⟩

/-- Claim C4: a confirmation answer normalizing (lower-case, then strip) to
`n` or `no` — so `"n"`, `"N"`, `"no"`, `"No"`, with surrounding whitespace —
makes the process exit with status 0, with no compiler invocation and no
destination write; and any answer outside the accepted set
`{y, yes, n, no}` repeats the prompt. -/
theorem spec_c4_decline_and_reprompt :
    (∀ (env : Env) (s : String) (rest : List String) (t : String),
        env.api = ApiBehavior.returns t → t ≠ "" →
        env.confirmInputs = s :: rest →
        (pyStrip (pyLower s) = "n" ∨ pyStrip (pyLower s) = "no") →
        mainAfterRead env = ⟨Term.exited 0, true, 0, none, none⟩) ∧
    (∀ (s : String) (rest : List String),
        pyStrip (pyLower s) ≠ "y" → pyStrip (pyLower s) ≠ "yes" →
        pyStrip (pyLower s) ≠ "n" → pyStrip (pyLower s) ≠ "no" →
        confirmLoop (s :: rest) = confirmLoop rest) := by
  constructor
  · intro env s rest t hapi ht hconf hn
    have hcl : confirmLoop env.confirmInputs = some ConfirmAnswer.no := by
      rw [hconf]
      rcases hn with h | h <;> simp [confirmLoop, h]
    simp [mainAfterRead, get_customized_latex, hapi, ht, hcl]
  · intro s rest h1 h2 h3 h4
    simp [confirmLoop, h1, h2, h3, h4]

/-- Witness for `spec_c4_decline_and_reprompt`: the operator answers
`" N "`; and an unrecognized answer `"maybe"` re-prompts. -/
theorem spec_c4_decline_and_reprompt_witness :
    mainAfterRead ⟨"jd.txt", "jd", "res", ApiBehavior.returns "x", [" N "], [],
        RunOutcome.ok, RunOutcome.ok, none⟩ =
      ⟨Term.exited 0, true, 0, none, none⟩ ∧
    confirmLoop ["maybe", "y"] = confirmLoop ["y"] :=
  ⟨spec_c4_decline_and_reprompt.1 _ " N " [] "x" rfl (by decide) rfl
      (Or.inl (by decide)),
    spec_c4_decline_and_reprompt.2 "maybe" ["y"] (by decide) (by decide)
      (by decide) (by decide)⟩

/-- Claim C5: a blank (whitespace-only) answer at the filename prompt makes
the loop return the default name, which is derived from the
job-description file's base name (truncated at the first dot, spaces
replaced by underscores) with the `.pdf` extension; in particular for path
`"acme.txt"` the default is exactly `"Resume_JohnDoe_for_acme.pdf"`. -/
theorem spec_c5_blank_default :
    (∀ (jd_file_path s : String) (rest : List String),
        pyStrip s = "" →
        namingLoop jd_file_path (s :: rest) = some (default_name jd_file_path)) ∧
    default_name "acme.txt" = "Resume_JohnDoe_for_acme.pdf" := by
  constructor
  · intro p s rest h0
    have hg := dirname_default_name p
    have he : pyEndsWith (pyLower (default_name p)) ".pdf" = true := by
      simp only [default_name]
      exact pyEndsWith_pdf_append ("Resume_JohnDoe_for_" ++ company_name p)
    simp [namingLoop, h0, hg, he]
  · decide

/-- Witness for `spec_c5_blank_default`: blank answer, path `"acme.txt"`. -/
theorem spec_c5_blank_default_witness :
    namingLoop "acme.txt" ["  "] = some (default_name "acme.txt") :=
  spec_c5_blank_default.1 "acme.txt" "  " [] (by decide)

/-- Claim C6: an operator answer containing the directory separator `'/'`
is never accepted — the loop re-asks with the remaining input — and every
filename the loop does accept (hence every filename handed to the compile
step) contains no directory component. -/
theorem spec_c6_separator_guard :
    (∀ (jd_file_path s : String) (rest : List String),
        '/' ∈ s.data →
        namingLoop jd_file_path (s :: rest) = namingLoop jd_file_path rest) ∧
    (∀ (jd_file_path : String) (inputs : List String) (name : String),
        namingLoop jd_file_path inputs = some name → '/' ∉ name.data) := by
  constructor
  · intro p s rest hmem
    have hstripmem : '/' ∈ stripL s.data := mem_stripL_of_mem hmem (by decide)
    have h0 : pyStrip s ≠ "" := by
      rw [ne_eq, pyStrip, mkStr_eq_empty_iff]
      exact List.ne_nil_of_mem hstripmem
    have hg : dirname (pyStrip s) ≠ "" := by
      rw [ne_eq, dirname_eq_empty_iff]
      exact fun hc => hc hstripmem
    simp [namingLoop, h0, hg]
  · exact fun p => namingLoop_result_no_slash p

/-- Witness for `spec_c6_separator_guard`: the answer `"a/b"` is skipped,
and the accepted result `"out.pdf"` of the answer `"out"` has no slash. -/
theorem spec_c6_separator_guard_witness :
    namingLoop "acme.txt" ["a/b", "out"] = namingLoop "acme.txt" ["out"] ∧
    '/' ∉ ("out.pdf" : String).data :=
  ⟨spec_c6_separator_guard.1 "acme.txt" "a/b" ["out"] (by decide),
    spec_c6_separator_guard.2 "acme.txt" ["out"] "out.pdf" (by decide)⟩

/-- Claim C7: an accepted (non-blank, separator-free) operator filename
whose lowercase form does not end in `.pdf` gets `.pdf` appended exactly
once, and one already ending in `.pdf` (case-insensitively) is returned
unchanged. -/
theorem spec_c7_extension_append :
    (∀ (jd_file_path s : String) (rest : List String),
        pyStrip s ≠ "" → dirname (pyStrip s) = "" →
        pyEndsWith (pyLower (pyStrip s)) ".pdf" = false →
        namingLoop jd_file_path (s :: rest) = some (pyStrip s ++ ".pdf")) ∧
    (∀ (jd_file_path s : String) (rest : List String),
        pyStrip s ≠ "" → dirname (pyStrip s) = "" →
        pyEndsWith (pyLower (pyStrip s)) ".pdf" = true →
        namingLoop jd_file_path (s :: rest) = some (pyStrip s)) := by
  constructor <;>
    · intro p s rest h0 hg he
      simp [namingLoop, h0, hg, he]

/-- Witness for `spec_c7_extension_append`: `"out"` becomes `"out.pdf"`,
`"Out.PDF"` is kept unchanged. -/
theorem spec_c7_extension_append_witness :
    namingLoop "acme.txt" ["out"] = some ("out" ++ ".pdf") ∧
    namingLoop "acme.txt" ["Out.PDF"] = some (pyStrip "Out.PDF") :=
  ⟨by
    have := spec_c7_extension_append.1 "acme.txt" "out" [] (by decide)
      (by decide) (by decide)
    simpa using this,
   spec_c7_extension_append.2 "acme.txt" "Out.PDF" [] (by decide)
      (by decide) (by decide)⟩

/-- Claim C8: the destination file is written exactly when both compiler
invocations succeed and the produced artifact exists in the temporary
directory; on every failure path no destination file is created or
modified; and on success the destination contents equal the temporary
directory's artifact. -/
theorem spec_c8_copy_only_on_success (run1 run2 : RunOutcome)
    (pdfProduced : Option String) :
    ((compile_latex_to_pdf run1 run2 pdfProduced).destWrite.isSome = true ↔
      run1 = RunOutcome.ok ∧ run2 = RunOutcome.ok ∧ pdfProduced.isSome = true) ∧
    ((compile_latex_to_pdf run1 run2 pdfProduced).success = false →
      (compile_latex_to_pdf run1 run2 pdfProduced).destWrite = none) ∧
    (∀ contents, pdfProduced = some contents →
      (compile_latex_to_pdf run1 run2 pdfProduced).success = true →
      (compile_latex_to_pdf run1 run2 pdfProduced).destWrite = some contents) := by
  cases run1 <;> cases run2 <;> cases pdfProduced <;>
    simp [compile_latex_to_pdf]

/-- Witness for `spec_c8_copy_only_on_success`. -/
theorem spec_c8_copy_only_on_success_witness :
    (compile_latex_to_pdf RunOutcome.ok RunOutcome.calledProcessError
        (some "PDF")).destWrite = none ∧
    (compile_latex_to_pdf RunOutcome.ok RunOutcome.ok
        (some "PDF")).destWrite = some "PDF" :=
  ⟨(spec_c8_copy_only_on_success RunOutcome.ok RunOutcome.calledProcessError
      (some "PDF")).2.1 rfl,
    (spec_c8_copy_only_on_success RunOutcome.ok RunOutcome.ok
      (some "PDF")).2.2 "PDF" rfl rfl⟩

/-- Claim C9: the company portion of the default output filename is the
job-description basename truncated at its first dot (with spaces then
replaced by underscores): a basename `b1 ++ "." ++ b2` with no dot in `b1`
yields company part `b1`; `"acme.v2.txt"` yields `"acme"`; and a basename
beginning with a dot yields the empty company part, so path `".hidden"`
gives default `"Resume_JohnDoe_for_.pdf"`. -/
theorem spec_c9_first_dot_truncation :
    (∀ (p : String) (b1 b2 : List Char),
        basenameL p.data = b1 ++ '.' :: b2 → '.' ∉ b1 →
        company_name p = ⟨b1.map (fun c => if c = ' ' then '_' else c)⟩) ∧
    company_name "acme.v2.txt" = "acme" ∧
    default_name ".hidden" = "Resume_JohnDoe_for_.pdf" := by
  refine ⟨?_, by decide, by decide⟩
  intro p b1 b2 hb hdot
  simp only [company_name, hb, splitDot_headD_append b2 hdot]

/-- Witness for `spec_c9_first_dot_truncation` at `"acme.v2.txt"`. -/
theorem spec_c9_first_dot_truncation_witness :
    company_name "acme.v2.txt" =
      ⟨"acme".data.map (fun c => if c = ' ' then '_' else c)⟩ :=
  spec_c9_first_dot_truncation.1 "acme.v2.txt" "acme".data "v2.txt".data
    (by decide) (by decide)

/-- Claim C10: the tailoring client returns `None` for every exception the
external call raises (the `try/except Exception` swallows them all), and
the orchestrator maps both a `None` and an empty-string result to
`sys.exit(1)` before the review/confirmation step: nothing is reviewed, no
compiler runs, no destination is written. -/
theorem spec_c10_failure_null_abort :
    (∀ (message jd_text resume_latex : String),
        (get_customized_latex (ApiBehavior.raises message) jd_text
          resume_latex).2 = none) ∧
    (∀ env : Env,
        ((∃ message, env.api = ApiBehavior.raises message) ∨
          env.api = ApiBehavior.returns "") →
        mainAfterRead env = ⟨Term.exited 1, false, 0, none, none⟩) := by
  constructor
  · intro message jd_text resume_latex
    rfl
  · intro env h
    rcases h with ⟨m, hm⟩ | hm <;>
      simp [mainAfterRead, get_customized_latex, hm]

/-- Witness for `spec_c10_failure_null_abort`: a raised exception aborts
with exit status 1 before review. -/
theorem spec_c10_failure_null_abort_witness :
    mainAfterRead ⟨"jd.txt", "jd", "res", ApiBehavior.raises "boom", ["y"], [],
        RunOutcome.ok, RunOutcome.ok, none⟩ =
      ⟨Term.exited 1, false, 0, none, none⟩ :=
  spec_c10_failure_null_abort.2 _ (Or.inl ⟨"boom", rfl⟩)

end ResumeTailor
